import Mathlib

/-!
Verification development for the schema-adaptive RAG pipeline of
`flexible_rag.py` (repository `dsc-chiba-u/hackathon-20250324`).

The Python source is shallowly embedded: every definition below mirrors a
function or an inline code fragment of `flexible_rag.py`, with remote
collaborators (the search service client and the answer-generation client)
passed in as explicit function arguments returning `Except`, so that the
`try/except` structure of the source becomes explicit error propagation.
Python strings are modelled as Lean `String` (sequences of unicode scalar
values, matching Python's code-point indexing); Python `str.lower` /
`str.upper` are modelled with Lean's per-character ASCII case mapping,
which agrees with Python on the ASCII field names and patterns the program
manipulates.
-/

/-- Python `needle in hay` test on character lists: `needle` occurs as a
contiguous segment.  `segAt needle hay` checks occurrence at the front. -/
def segAt : List Char → List Char → Bool
  | [], _ => true
  | _ :: _, [] => false
  | a :: as, b :: bs => a == b && segAt as bs

/-- Occurrence of `needle` as a contiguous segment anywhere in `hay`. -/
def segAnywhere (needle : List Char) : List Char → Bool
  | [] => segAt needle []
  | hay@(_ :: rest) => segAt needle hay || segAnywhere needle rest

/-- Python `needle in hay` on strings (substring containment). -/
def strContains (hay needle : String) : Bool :=
  segAnywhere needle.data hay.data

/-- Python `s.startswith(p)`. -/
def strStarts (s p : String) : Bool :=
  segAt p.data s.data

/-- Python `s.lower()` (per-character ASCII case mapping). -/
def strLower (s : String) : String :=
  String.mk (s.data.map Char.toLower)

/-- Python `s[:n]` (first `n` code points). -/
def strTake (s : String) (n : Nat) : String :=
  String.mk (s.data.take n)

theorem length_strTake (s : String) (n : Nat) :
    (strTake s n).length = min n s.length := by
  have h1 : (strTake s n).length = (s.data.take n).length := rfl
  have h2 : s.length = s.data.length := rfl
  rw [h1, h2, List.length_take]

/-- Normalized per-field schema record built by `get_index_schema`
(the Python `field_info` dict, lines 268–277). -/
structure FieldInfo where
  name : String
  type : String
  searchable : Bool
  retrievable : Bool
  filterable : Bool
  sortable : Bool
  facetable : Bool
  key : Bool

/-- A field object as returned by the service client, before normalization.
Each capability attribute may be absent (`none`) or carry a boolean; the
`is_`-prefixed alternates model the alternate attribute spelling the client
may use (lines 280–291 of the source probe both with `hasattr`).  A Python
attribute holding `None` is falsy under every use the source makes of it,
so it is also modelled as `none`. -/
structure RawField where
  name : String
  type : String
  searchable : Option Bool
  is_searchable : Option Bool
  retrievable : Option Bool
  is_retrievable : Option Bool
  filterable : Option Bool
  is_filterable : Option Bool
  sortable : Option Bool
  is_sortable : Option Bool
  facetable : Option Bool
  is_facetable : Option Bool
  key : Option Bool
  is_key : Option Bool
  vector_search_dimensions : Option Nat

/-- Capability-flag normalization of `get_index_schema`: first
`hasattr(field, "x") and field.x` (lines 271–276), then, only when that is
falsy and the alternate attribute exists,
`field_info["x"] = field.is_x` (lines 280–291). -/
def resolveFlag (plainAttr altAttr : Option Bool) : Bool :=
  let v : Bool := match plainAttr with
    | some b => b
    | none => false
  if v = false then
    match altAttr with
    | some b => b
    | none => v
  else v

/-- One field of `schema["fields"]` as built by `get_index_schema`. -/
def normalize_field (f : RawField) : FieldInfo :=
  { name := f.name
    type := f.type
    searchable := resolveFlag f.searchable f.is_searchable
    retrievable := resolveFlag f.retrievable f.is_retrievable
    filterable := resolveFlag f.filterable f.is_filterable
    sortable := resolveFlag f.sortable f.is_sortable
    facetable := resolveFlag f.facetable f.is_facetable
    key := resolveFlag f.key f.is_key }

/-- The schema dictionary built by `get_index_schema` (lines 258–305). -/
structure Schema where
  name : String
  fields : List FieldInfo
  searchable_fields : List String
  retrievable_fields : List String
  has_vector_fields : Bool

/-- Truthiness of `field.vector_search_dimensions` (line 293): the attribute
is present and non-zero. -/
def hasVectorDims (f : RawField) : Bool :=
  match f.vector_search_dimensions with
  | some n => n != 0
  | none => false

/-- The function `get_index_schema` on the success path, as a function of the field list
returned by the service client (lines 258–305): every field is normalized
and appended to `fields`, every field name is appended to
`retrievable_fields`, names of fields whose normalized `searchable` flag is
true are appended to `searchable_fields`, and `has_vector_fields` becomes
true when some field has truthy `vector_search_dimensions`. -/
def get_index_schema (index_name : String) (rawFields : List RawField) : Schema :=
  { name := index_name
    fields := rawFields.map normalize_field
    searchable_fields :=
      ((rawFields.map normalize_field).filter (fun f => f.searchable)).map
        (fun f => f.name)
    retrievable_fields := rawFields.map (fun f => f.name)
    has_vector_fields := rawFields.any hasVectorDims }

/-- The search-field selection loop inside `search_documents` (lines
369–372): a field name is appended when its `searchable` flag is true, the
lowercased exclude pattern does not occur in the lowercased field name, and
the field type does not start with the vector type pattern. -/
def searchable_text_fields (fields : List FieldInfo)
    (vector_exclude_pattern vector_type_pattern : String) : List String :=
  (fields.filter (fun f =>
      f.searchable
        && !(strContains (strLower f.name) (strLower vector_exclude_pattern))
        && !(strStarts f.type vector_type_pattern))).map
    (fun f => f.name)

/-- A call to `search_client.search` (lines 376–389): the keyword arguments
actually passed.  `search_fields = none` models the call that omits the
`search_fields` keyword (line 376). -/
structure SearchQuery where
  search_text : String
  search_fields : Option (List String)
  include_total_count : Bool
  top : Nat

/-- Python document / dict value occurring in search hits. -/
inductive Value where
  | str : String → Value
  | num : Int → Value
  | list : List Value → Value
  | dict : List (String × Value) → Value

/-- A Python dict with string keys, e.g. one search hit. -/
abbrev PyDict := List (String × Value)

/-- What one successful `search_client.search` call yields once iterated:
the raw hits in engine order and the server-reported total
(`get_count()`). -/
structure EngineResponse where
  hits : List PyDict
  total : Nat

/-- The dict returned by `search_documents` (lines 397–400 / 403). -/
structure SearchResult where
  count : Nat
  documents : List PyDict

/-- The hit-cleaning comprehension of line 394:
`{k: v for k, v in result.items() if not k.startswith('@')}`. -/
def strip_metadata (hit : PyDict) : PyDict :=
  hit.filter (fun kv => !(strStarts kv.1 "@"))

/-- The query constructed by `search_documents` (lines 374–389): when the
selected field list is empty the `search_fields` keyword is omitted,
otherwise it is exactly the selected list. -/
def build_search_query (query : String) (schema : Schema) (top : Nat)
    (vector_exclude_pattern vector_type_pattern : String) : SearchQuery :=
  let sf := searchable_text_fields schema.fields
      vector_exclude_pattern vector_type_pattern
  if sf.isEmpty then
    { search_text := query, search_fields := none
      include_total_count := true, top := top }
  else
    { search_text := query, search_fields := some sf
      include_total_count := true, top := top }

/-- The function `search_documents` (lines 350–403).  Here `client_error = true` models an
exception raised while constructing the `SearchClient` (lines 351–366);
`engine` models `search_client.search` together with result iteration and
`get_count()`, whose failures all surface while the body of the `try`
block runs, so an `Except.error` covers query execution and result
iteration failures alike.  The whole body is wrapped in `try/except`
returning `{"count": 0, "documents": []}` on any exception (lines
401–403).  The second component is the list of queries actually issued to
the engine, in order. -/
def search_documents (client_error : Bool)
    (engine : SearchQuery → Except String EngineResponse)
    (query : String) (schema : Schema) (top : Nat)
    (vector_exclude_pattern vector_type_pattern : String) :
    SearchResult × List SearchQuery :=
  if client_error then
    ({ count := 0, documents := [] }, [])
  else
    let q := build_search_query query schema top
        vector_exclude_pattern vector_type_pattern
    match engine q with
    | Except.error _ => ({ count := 0, documents := [] }, [q])
    | Except.ok res =>
        ({ count := res.total, documents := res.hits.map strip_metadata }, [q])

/-- The message printed by `search_documents` on failure (line 402). -/
def search_failure_message (e : String) : String :=
  "検索に失敗しました: " ++ e

/-- JSON string escaping as performed by `json.dumps(..., ensure_ascii=False)`:
quote, backslash and ASCII control characters are escaped, everything else
(non-ASCII included) is emitted verbatim. -/
def jsonEscapeChar (c : Char) : List Char :=
  if c = '"' then ['\\', '"']
  else if c = '\\' then ['\\', '\\']
  else if c = '\n' then ['\\', 'n']
  else if c = '\t' then ['\\', 't']
  else if c = '\r' then ['\\', 'r']
  else if c.toNat = 8 then ['\\', 'b']
  else if c.toNat = 12 then ['\\', 'f']
  else if c.toNat < 32 then
    ['\\', 'u', '0', '0',
      (Nat.digitChar (c.toNat / 16)), (Nat.digitChar (c.toNat % 16))]
  else [c]

/-- Escape the body of a JSON string literal. -/
def jsonEscape (s : String) : String :=
  String.mk (s.data.flatMap jsonEscapeChar)

mutual

/-- Model of `json.dumps(value, ensure_ascii=False)` with Python's default
separators (", " between items, ": " after keys). -/
def jsonDumps : Value → String
  | Value.str s => "\"" ++ jsonEscape s ++ "\""
  | Value.num n => toString n
  | Value.list vs => "[" ++ jsonDumpsArr vs ++ "]"
  | Value.dict kvs => "\x7b" ++ jsonDumpsObj kvs ++ "\x7d"

/-- Comma-joined JSON rendering of array elements. -/
def jsonDumpsArr : List Value → String
  | [] => ""
  | [v] => jsonDumps v
  | v :: w :: rest => jsonDumps v ++ ", " ++ jsonDumpsArr (w :: rest)

/-- Comma-joined JSON rendering of object entries. -/
def jsonDumpsObj : List (String × Value) → String
  | [] => ""
  | [(k, v)] => "\"" ++ jsonEscape k ++ "\": " ++ jsonDumps v
  | (k, v) :: p :: rest =>
      "\"" ++ jsonEscape k ++ "\": " ++ jsonDumps v ++ ", " ++ jsonDumpsObj (p :: rest)

end

/-- The per-value transformation inside the context loop of
`generate_answer` (lines 466–474): first, when the value is a string
longer than `max_context_length`, it is sliced and an ellipsis marker is
appended (lines 469–470); then, when the (possibly already transformed)
value is a list or dict, it is serialized with `json.dumps`
(lines 473–474); the result is interpolated into the context line.
Note the order: a list or dict is never a string when the length test
runs, so serialized forms are not subject to the truncation rule here. -/
def context_field_value (max_context_length : Nat) (value : Value) : String :=
  let v1 : Value := match value with
    | Value.str s =>
        if s.length > max_context_length then
          Value.str (strTake s max_context_length ++ "...")
        else Value.str s
    | w => w
  match v1 with
  | Value.str s => s
  | Value.num n => toString n
  | Value.list vs => jsonDumps (Value.list vs)
  | Value.dict kvs => jsonDumps (Value.dict kvs)

/-- Python `field_name.replace("_", " ")` for the single-character pattern
used at line 477. -/
def replaceUnderscores (s : String) : String :=
  String.mk (s.data.map (fun c => if c = '_' then ' ' else c))

/-- Python `str.capitalize`: first character title-cased, remainder
lower-cased (ASCII case mapping). -/
def capitalize (s : String) : String :=
  match s.data with
  | [] => ""
  | c :: cs => String.mk (Char.toUpper c :: cs.map Char.toLower)

/-- Line 477: `field_name.replace("_", " ").capitalize()`. -/
def display_name (field_name : String) : String :=
  capitalize (replaceUnderscores field_name)

/-- The per-document block of the context loop (lines 461–478): the
document header, then one `<display name>: <value>` line for each
retrievable field name present in the document. -/
def document_context (max_context_length : Nat)
    (retrievable_fields : List String) (idx : Nat) (doc : PyDict) : String :=
  "\n--- ドキュメント " ++ toString idx ++ " ---\n"
    ++ retrievable_fields.foldl
      (fun acc field_name =>
        match doc.lookup field_name with
        | some value =>
            acc ++ display_name field_name ++ ": "
              ++ context_field_value max_context_length value ++ "\n"
        | none => acc)
      ""

/-- Helper for `build_context`: documents are numbered from `idx`
upward (`enumerate(documents, 1)`). -/
def build_context_from (max_context_length : Nat)
    (retrievable_fields : List String) : Nat → List PyDict → String
  | _, [] => ""
  | idx, doc :: rest =>
      document_context max_context_length retrievable_fields idx doc
        ++ build_context_from max_context_length retrievable_fields (idx + 1) rest

/-- The full context string assembled by `generate_answer`
(lines 459–478). -/
def build_context (max_context_length : Nat) (retrievable_fields : List String)
    (documents : List PyDict) : String :=
  build_context_from max_context_length retrievable_fields 1 documents

/-- The system message of lines 485–496 with the question and the context
interpolated. -/
def system_message (question context : String) : String :=
  "\nあなたは知識豊富なアシスタントです。\n以下の情報源を参考にして、ユーザーの質問に対して有益な回答を提供してください。\n情報源に直接関連する内容が見つからない場合でも、情報源から推測できる関連情報があれば提供してください。\n完全に情報がない場合のみ「情報が見つかりませんでした」と伝えてください。\n回答は日本語で提供し、簡潔かつ正確であることを心がけてください。\n\n質問: "
    ++ question ++ "\n\n情報源:\n" ++ context ++ "\n"

/-- The fallback string returned by `generate_answer`'s `except` clause
(line 516). -/
def generation_failure_message (e : String) : String :=
  "OpenAIでの回答生成に失敗しました: " ++ e ++ "\n\n以下に検索結果を表示します。"

/-- The function `generate_answer` (lines 406–516).  Here `gen` models the Azure OpenAI
client: given the system message it either returns the generated text or
fails; its failure (and every failure inside the `try` block, client
construction included) is caught by the `except` clause, which returns the
descriptive fallback string built from the exception text.  The second
component is the list of collaborator calls made, in order (the source
contains exactly one `chat.completions.create` call and no retry loop). -/
def generate_answer (gen : String → Except String String) (question : String)
    (documents : List PyDict) (schema : Schema) (max_context_length : Nat) :
    String × List String :=
  let context := build_context max_context_length schema.retrievable_fields documents
  let msg := system_message question context
  match gen msg with
  | Except.ok answer => (answer, [msg])
  | Except.error e => (generation_failure_message e, [msg])

/-- The no-results message printed by `main` (lines 717, 767, 820, 877). -/
def no_results_message : String :=
  "関連するドキュメントが見つかりませんでした。"

/-- Caller-visible actions of `main`'s search branch (lines 720–767);
the other search branches of `main` (lines 650–717, 770–820, 823–877)
share this exact structure. -/
inductive Step where
  | showed_schema : Step
  | showed_search_summary : Nat → Step
  | displayed_documents : List PyDict → Step
  | called_generate : Step
  | showed_answer : String → Step
  | showed_no_results : Step

/-- The search branch of `main` (lines 720–767) as a trace of
caller-visible steps: fetch the schema (abort silently when
`get_index_schema` returned `None`, lines 722–724), optionally print the
schema and stop (lines 727–734), run `search_documents`, print the query
summary and display the documents (lines 737–752), then either generate
and print an answer (when documents exist and `--search-only` is not set,
lines 755–765) or print the no-results message (when no documents came
back, lines 766–767). -/
def main_pipeline (schema_result : Option Schema)
    (show_schema search_only client_error : Bool)
    (engine : SearchQuery → Except String EngineResponse)
    (gen : String → Except String String)
    (query : String) (top max_context_length : Nat)
    (vector_exclude_pattern vector_type_pattern : String) : List Step :=
  match schema_result with
  | none => []
  | some schema =>
    if show_schema then [Step.showed_schema]
    else
      let sr := (search_documents client_error engine query schema top
          vector_exclude_pattern vector_type_pattern).1
      let shown := [Step.showed_search_summary sr.count,
        Step.displayed_documents sr.documents]
      if !sr.documents.isEmpty && !search_only then
        shown ++ [Step.called_generate,
          Step.showed_answer (generate_answer gen query sr.documents schema
            max_context_length).1]
      else if sr.documents.isEmpty then
        shown ++ [Step.showed_no_results]
      else
        shown

/-- Number of invocations of the answer generator in a trace. -/
def generate_calls (steps : List Step) : Nat :=
  steps.foldl
    (fun n s => match s with
      | Step.called_generate => n + 1
      | _ => n)
    0

/-- Whether the no-results message was shown. -/
def shows_no_results (steps : List Step) : Bool :=
  steps.any (fun s => match s with
    | Step.showed_no_results => true
    | _ => false)

/-- Whether a generated (or fallback) answer was shown. -/
def shows_answer (steps : List Step) : Bool :=
  steps.any (fun s => match s with
    | Step.showed_answer _ => true
    | _ => false)

/-- Whether the search results were displayed. -/
def displays_documents (steps : List Step) : Bool :=
  steps.any (fun s => match s with
    | Step.displayed_documents _ => true
    | _ => false)

/-- The schema of Scenario A: `id` (key), `content` (searchable text),
`vectorField` (searchable, vector-typed, 1536 dimensions). -/
def scenario_a_fields : List FieldInfo :=
  [{ name := "id", type := "Edm.String", searchable := false, retrievable := true,
     filterable := true, sortable := true, facetable := false, key := true },
   { name := "content", type := "Edm.String", searchable := true, retrievable := true,
     filterable := false, sortable := false, facetable := false, key := false },
   { name := "vectorField", type := "Collection(Edm.Single)", searchable := true,
     retrievable := true, filterable := false, sortable := false, facetable := false,
     key := false }]

/-- A one-field schema with a single searchable text field, for concrete runs. -/
def schema0 : Schema :=
  { name := "idx"
    fields := [{ name := "content", type := "Edm.String", searchable := true,
                 retrievable := true, filterable := false, sortable := false,
                 facetable := false, key := false }]
    searchable_fields := ["content"]
    retrievable_fields := ["content"]
    has_vector_fields := false }

/-- A schema with no fields at all, for concrete runs. -/
def empty_schema : Schema :=
  { name := "idx", fields := [], searchable_fields := [],
    retrievable_fields := [], has_vector_fields := false }

/-- A search collaborator whose every call raises. -/
def failing_engine : SearchQuery → Except String EngineResponse :=
  fun _ => Except.error "ServiceRequestError"

/-- A search collaborator that returns no hits. -/
def empty_engine : SearchQuery → Except String EngineResponse :=
  fun _ => Except.ok { hits := [], total := 0 }

/-- One hit carrying an engine-metadata key and a content key. -/
def metadata_engine_response : EngineResponse :=
  { hits := [[("@search.score", Value.num 1), ("content", Value.str "hello")]]
    total := 1 }

/-- A search collaborator returning `metadata_engine_response`. -/
def metadata_engine : SearchQuery → Except String EngineResponse :=
  fun _ => Except.ok metadata_engine_response

/-- A generation collaborator whose every call raises. -/
def failing_gen : String → Except String String :=
  fun _ => Except.error "APIConnectionError"

/-- A generation collaborator that always answers. -/
def ok_gen : String → Except String String :=
  fun _ => Except.ok "生成された回答"

/-- C1: the search-field selection inside `search_documents` contains a
name exactly when some schema field carries that name, is searchable, has
no case-insensitive occurrence of the vector name pattern in its name, and
has a type that does not start with the vector type pattern; on the
Scenario A schema with the default patterns it selects exactly
`content`. -/
theorem c1_field_classifier (fields : List FieldInfo) (p q n : String) :
    (n ∈ searchable_text_fields fields p q ↔
      ∃ f, f ∈ fields ∧ f.name = n ∧ f.searchable = true ∧
        strContains (strLower f.name) (strLower p) = false ∧
        strStarts f.type q = false) ∧
    searchable_text_fields scenario_a_fields "vector" "Collection(Edm.Single)"
      = ["content"] := by
  refine ⟨⟨?_, ?_⟩, by decide⟩
  · intro h
    rcases List.mem_map.mp h with ⟨f, hf, hname⟩
    rcases List.mem_filter.mp hf with ⟨hmem, hpred⟩
    simp only [Bool.and_eq_true, Bool.not_eq_true'] at hpred
    exact ⟨f, hmem, hname, hpred.1.1, hpred.1.2, hpred.2⟩
  · rintro ⟨f, hmem, hname, hs, hc, hst⟩
    exact List.mem_map.mpr
      ⟨f, List.mem_filter.mpr ⟨hmem, by simp [hs, hc, hst]⟩, hname⟩

/-- C2: when the selected search-field list is empty, `search_documents`
issues exactly one query with the `search_fields` keyword omitted; when it
is non-empty, the single issued query restricts `search_fields` to exactly
the selected list. -/
theorem c2_unrestricted_fallback
    (engine : SearchQuery → Except String EngineResponse)
    (query : String) (schema : Schema) (top : Nat) (p q : String) :
    (searchable_text_fields schema.fields p q = [] →
      (search_documents false engine query schema top p q).2 =
        [{ search_text := query, search_fields := none,
           include_total_count := true, top := top }]) ∧
    (searchable_text_fields schema.fields p q ≠ [] →
      (search_documents false engine query schema top p q).2 =
        [{ search_text := query,
           search_fields := some (searchable_text_fields schema.fields p q),
           include_total_count := true, top := top }]) := by
  have hq : ∀ bq : SearchQuery, build_search_query query schema top p q = bq →
      (search_documents false engine query schema top p q).2 = [bq] := by
    intro bq hbq
    subst hbq
    rcases he : engine (build_search_query query schema top p q) with e | r <;>
      simp [search_documents, he]
  constructor
  · intro h
    exact hq _ (by simp [build_search_query, h])
  · intro h
    rcases hsf : searchable_text_fields schema.fields p q with _ | ⟨a, as⟩
    · exact absurd hsf h
    · refine hq _ ?_
      rw [build_search_query]
      simp [hsf]

/-- C2 witness: a schema with no fields yields the unrestricted query; a
schema with one searchable text field yields the restricted query. -/
theorem c2_unrestricted_fallback_witness :
    (search_documents false failing_engine "q" empty_schema 3 "vector"
        "Collection(Edm.Single)").2 =
      [{ search_text := "q", search_fields := none,
         include_total_count := true, top := 3 }] ∧
    (search_documents false failing_engine "q" schema0 3 "vector"
        "Collection(Edm.Single)").2 =
      [{ search_text := "q",
         search_fields := some (searchable_text_fields schema0.fields "vector"
           "Collection(Edm.Single)"),
         include_total_count := true, top := 3 }] :=
  ⟨(c2_unrestricted_fallback failing_engine "q" empty_schema 3 "vector"
      "Collection(Edm.Single)").1 rfl,
   (c2_unrestricted_fallback failing_engine "q" schema0 3 "vector"
      "Collection(Edm.Single)").2 (by decide)⟩

/-- A five-element list value whose JSON serialization (25 characters) is
longer than a max field length of 5. -/
def c3_list_value : Value :=
  Value.list [Value.str "a", Value.str "b", Value.str "c", Value.str "d",
    Value.str "e"]

/-- C3 (counterexample): with `max_context_length = 5` and a five-element
list value, the context line of `generate_answer` renders the full
25-character JSON serialization — the rendered text exceeds the maximum
length plus the 3-character marker, and the context does not contain the
truncated serialized form.  The truncation check at line 469 runs before
the `json.dumps` call at lines 473–474 and only fires on `str` values, so
serialized sequences are never truncated. -/
theorem c3_serialization_order_counterexample :
    context_field_value 5 c3_list_value = jsonDumps c3_list_value ∧
    (jsonDumps c3_list_value).length = 25 ∧
    (context_field_value 5 c3_list_value).length > 5 + 3 ∧
    strContains (build_context 5 ["tags"] [[("tags", c3_list_value)]])
      (strTake (jsonDumps c3_list_value) 5 ++ "...") = false :=
  ⟨by decide, by decide, by decide, by decide⟩

/-- C3 (amended): in the context of `generate_answer`, list and dict
values are serialized with `json.dumps` only after the string-truncation
check, so their serialized form is rendered in full, never truncated,
whatever `max_context_length` is. -/
theorem c3_serialization_after_truncation (max_context_length : Nat)
    (vs : List Value) (kvs : List (String × Value)) :
    context_field_value max_context_length (Value.list vs) =
      jsonDumps (Value.list vs) ∧
    context_field_value max_context_length (Value.dict kvs) =
      jsonDumps (Value.dict kvs) :=
  ⟨rfl, rfl⟩

/-- C4: a string value strictly longer than `max_context_length` is
rendered in the context of `generate_answer` as exactly its first
`max_context_length` characters followed by the `...` marker; a string
value of length at most `max_context_length` is rendered unchanged. -/
theorem c4_string_truncation (max_context_length : Nat) (s : String) :
    (s.length > max_context_length →
      context_field_value max_context_length (Value.str s) =
          strTake s max_context_length ++ "..." ∧
        (strTake s max_context_length).length = max_context_length) ∧
    (s.length ≤ max_context_length →
      context_field_value max_context_length (Value.str s) = s) := by
  constructor
  · intro h
    constructor
    · simp [context_field_value, h]
    · rw [length_strTake]
      exact Nat.min_eq_left (Nat.le_of_lt h)
  · intro h
    simp [context_field_value, Nat.not_lt.mpr h]

/-- C4 witness: `abcde` with limit 3 becomes `abc...`; with limit 7 it is
unchanged. -/
theorem c4_string_truncation_witness :
    (context_field_value 3 (Value.str "abcde") = strTake "abcde" 3 ++ "..." ∧
      (strTake "abcde" 3).length = 3) ∧
    context_field_value 7 (Value.str "abcde") = "abcde" :=
  ⟨(c4_string_truncation 3 "abcde").1 (by decide),
   (c4_string_truncation 7 "abcde").2 (by decide)⟩

/-- C5: `search_documents` is total — every failure point (client
construction, query execution, result iteration) yields the result
`{count := 0, documents := []}` instead of an exception — and it issues at
most one engine query per call, exactly one whenever the client is
constructed. -/
theorem c5_search_never_throws (client_error : Bool)
    (engine : SearchQuery → Except String EngineResponse)
    (query : String) (schema : Schema) (top : Nat) (p q : String) :
    (client_error = true →
      search_documents client_error engine query schema top p q =
        ({ count := 0, documents := [] }, [])) ∧
    (∀ e, engine (build_search_query query schema top p q) = Except.error e →
      (search_documents client_error engine query schema top p q).1 =
        { count := 0, documents := [] }) ∧
    (search_documents client_error engine query schema top p q).2.length ≤ 1 ∧
    (client_error = false →
      (search_documents client_error engine query schema top p q).2.length = 1) := by
  cases client_error
  · rcases he : engine (build_search_query query schema top p q) with e | r <;>
      simp [search_documents, he]
  · simp [search_documents]

/-- C5 witness: a client-construction failure and an engine failure both
yield the empty result, with zero and one issued query respectively. -/
theorem c5_search_never_throws_witness :
    search_documents true failing_engine "q" schema0 3 "vector"
        "Collection(Edm.Single)" =
      ({ count := 0, documents := [] }, []) ∧
    (search_documents false failing_engine "q" schema0 3 "vector"
        "Collection(Edm.Single)").1 =
      { count := 0, documents := [] } ∧
    (search_documents false failing_engine "q" schema0 3 "vector"
        "Collection(Edm.Single)").2.length = 1 :=
  ⟨(c5_search_never_throws true failing_engine "q" schema0 3 "vector"
      "Collection(Edm.Single)").1 rfl,
   (c5_search_never_throws false failing_engine "q" schema0 3 "vector"
      "Collection(Edm.Single)").2.1 "ServiceRequestError" rfl,
   (c5_search_never_throws false failing_engine "q" schema0 3 "vector"
      "Collection(Edm.Single)").2.2.2 rfl⟩

/-- C6: when the generation collaborator fails, `generate_answer` returns
the descriptive fallback string after exactly one collaborator call (no
retry), and the orchestrator still displays the raw search results —
the trace shows the documents displayed before generation is attempted and
ends with the fallback answer. -/
theorem c6_generation_fallback
    (gen : String → Except String String) (e : String)
    (hgen : ∀ msg, gen msg = Except.error e)
    (question : String) (documents : List PyDict) (schema : Schema)
    (max_context_length : Nat)
    (engine : SearchQuery → Except String EngineResponse)
    (query : String) (top : Nat) (p q : String) (res : EngineResponse)
    (heng : engine (build_search_query query schema top p q) = Except.ok res)
    (hne : res.hits.map strip_metadata ≠ []) :
    (generate_answer gen question documents schema max_context_length).1 =
      generation_failure_message e ∧
    (generate_answer gen question documents schema max_context_length).2.length
      = 1 ∧
    main_pipeline (some schema) false false false engine gen query top
        max_context_length p q =
      [Step.showed_search_summary res.total,
       Step.displayed_documents (res.hits.map strip_metadata),
       Step.called_generate,
       Step.showed_answer (generation_failure_message e)] := by
  have hie : (res.hits.map strip_metadata).isEmpty = false := by
    rcases hd : res.hits.map strip_metadata with _ | ⟨d, ds⟩
    · exact absurd hd hne
    · rfl
  refine ⟨by simp [generate_answer, hgen], by simp [generate_answer, hgen], ?_⟩
  simp [main_pipeline, search_documents, heng, hie, generate_answer, hgen]

/-- C6 witness: with an always-failing generator and a one-hit engine, the
fallback string is produced after one call and the pipeline trace shows
the displayed documents before the generation step. -/
theorem c6_generation_fallback_witness :
    (generate_answer failing_gen "q" [[("content", Value.str "hello")]] schema0
        1000).1 =
      generation_failure_message "APIConnectionError" ∧
    (generate_answer failing_gen "q" [[("content", Value.str "hello")]] schema0
        1000).2.length = 1 ∧
    main_pipeline (some schema0) false false false metadata_engine failing_gen
        "q" 3 1000 "vector" "Collection(Edm.Single)" =
      [Step.showed_search_summary metadata_engine_response.total,
       Step.displayed_documents
         (metadata_engine_response.hits.map strip_metadata),
       Step.called_generate,
       Step.showed_answer (generation_failure_message "APIConnectionError")] :=
  c6_generation_fallback failing_gen "APIConnectionError" (fun _ => rfl) "q"
    [[("content", Value.str "hello")]] schema0 1000 metadata_engine "q" 3
    "vector" "Collection(Edm.Single)" metadata_engine_response rfl
    (by intro h; exact absurd (congrArg List.length h) (by decide))

/-- The no-results message and the search-failure message differ for every
exception text: they start with different characters. -/
theorem no_results_message_ne_search_failure (e : String) :
    no_results_message ≠ search_failure_message e := by
  intro h
  have h1 : strStarts no_results_message "検"
      = strStarts (search_failure_message e) "検" := by rw [h]
  obtain ⟨l⟩ := e
  have h2 : strStarts (search_failure_message (String.mk l)) "検" = true := rfl
  rw [h2] at h1
  exact absurd h1 (by decide)

/-- C7: whenever the search step comes back with zero documents (including
the recovered-failure case), the pipeline ends in the no-results terminal:
the generator is never invoked and the no-results message — a message
distinct from the search-failure output for every exception text — is
shown. -/
theorem c7_no_results_terminal (schema : Schema) (client_error : Bool)
    (engine : SearchQuery → Except String EngineResponse)
    (gen : String → Except String String)
    (query : String) (top max_context_length : Nat) (p q : String)
    (hzero : (search_documents client_error engine query schema top p q).1.documents
      = []) :
    generate_calls (main_pipeline (some schema) false false client_error engine
        gen query top max_context_length p q) = 0 ∧
    shows_no_results (main_pipeline (some schema) false false client_error
        engine gen query top max_context_length p q) = true ∧
    (∀ e, no_results_message ≠ search_failure_message e) := by
  refine ⟨?_, ?_, no_results_message_ne_search_failure⟩ <;>
    simp [main_pipeline, hzero, generate_calls, shows_no_results]

/-- C7 witness: an engine returning no hits leads to a trace with no
generator call and the no-results terminal. -/
theorem c7_no_results_terminal_witness :
    generate_calls (main_pipeline (some schema0) false false false empty_engine
        ok_gen "q" 3 1000 "vector" "Collection(Edm.Single)") = 0 ∧
    shows_no_results (main_pipeline (some schema0) false false false
        empty_engine ok_gen "q" 3 1000 "vector" "Collection(Edm.Single)") = true :=
  ⟨(c7_no_results_terminal schema0 false empty_engine ok_gen "q" 3 1000
      "vector" "Collection(Edm.Single)" rfl).1,
   (c7_no_results_terminal schema0 false empty_engine ok_gen "q" 3 1000
      "vector" "Collection(Edm.Single)" rfl).2.1⟩

/-- C8: with the search-only flag set, the pipeline displays the search
results and stops: whatever the engine returns, the generator is never
invoked, no answer is shown, and the documents are displayed. -/
theorem c8_search_only_skips_generation (schema : Schema) (client_error : Bool)
    (engine : SearchQuery → Except String EngineResponse)
    (gen : String → Except String String)
    (query : String) (top max_context_length : Nat) (p q : String) :
    generate_calls (main_pipeline (some schema) false true client_error engine
        gen query top max_context_length p q) = 0 ∧
    shows_answer (main_pipeline (some schema) false true client_error engine
        gen query top max_context_length p q) = false ∧
    displays_documents (main_pipeline (some schema) false true client_error
        engine gen query top max_context_length p q) = true := by
  rcases hd : (search_documents client_error engine query schema top p q).1.documents
    with _ | ⟨d, ds⟩ <;>
    simp [main_pipeline, hd, generate_calls, shows_answer, displays_documents]

/-- The two-step probe of `get_index_schema` makes a capability true
exactly when either attribute spelling is explicitly true. -/
theorem resolveFlag_eq_true_iff (plainAttr altAttr : Option Bool) :
    resolveFlag plainAttr altAttr = true ↔
      plainAttr = some true ∨ altAttr = some true := by
  revert plainAttr altAttr
  decide

/-- C9: for every field returned by the client, each of the six
capability flags computed by `get_index_schema` is true exactly when the
plain attribute or its `is_`-prefixed alternate is explicitly true — an
explicit true in either representation wins over an absent attribute or a
false in the other — and the schema's field list is exactly the
normalization of the client's field list. -/
theorem c9_flag_normalization (raw : RawField) (index_name : String)
    (raws : List RawField) :
    ((normalize_field raw).searchable = true ↔
      raw.searchable = some true ∨ raw.is_searchable = some true) ∧
    ((normalize_field raw).retrievable = true ↔
      raw.retrievable = some true ∨ raw.is_retrievable = some true) ∧
    ((normalize_field raw).filterable = true ↔
      raw.filterable = some true ∨ raw.is_filterable = some true) ∧
    ((normalize_field raw).sortable = true ↔
      raw.sortable = some true ∨ raw.is_sortable = some true) ∧
    ((normalize_field raw).facetable = true ↔
      raw.facetable = some true ∨ raw.is_facetable = some true) ∧
    ((normalize_field raw).key = true ↔
      raw.key = some true ∨ raw.is_key = some true) ∧
    (get_index_schema index_name raws).fields = raws.map normalize_field :=
  ⟨resolveFlag_eq_true_iff _ _, resolveFlag_eq_true_iff _ _,
   resolveFlag_eq_true_iff _ _, resolveFlag_eq_true_iff _ _,
   resolveFlag_eq_true_iff _ _, resolveFlag_eq_true_iff _ _, rfl⟩

/-- C10: on a successful search, the returned documents are exactly the raw
hits, in engine order, each with every key starting with `@` removed: the
document list is the hit list mapped through `strip_metadata`, stripping
keeps the surviving entries in their original relative order (a sublist),
no surviving key starts with `@`, and every entry whose key does not start
with `@` survives. -/
theorem c10_metadata_stripped
    (engine : SearchQuery → Except String EngineResponse)
    (query : String) (schema : Schema) (top : Nat) (p q : String)
    (res : EngineResponse)
    (heng : engine (build_search_query query schema top p q) = Except.ok res) :
    (search_documents false engine query schema top p q).1.documents =
      res.hits.map strip_metadata ∧
    (∀ hit : PyDict, List.Sublist (strip_metadata hit) hit) ∧
    (∀ doc ∈ (search_documents false engine query schema top p q).1.documents,
      ∀ kv ∈ doc, strStarts kv.1 "@" = false) ∧
    (∀ (hit : PyDict) (kv : String × Value), kv ∈ hit →
      strStarts kv.1 "@" = false → kv ∈ strip_metadata hit) := by
  have hdocs : (search_documents false engine query schema top p q).1.documents
      = res.hits.map strip_metadata := by
    simp [search_documents, heng]
  refine ⟨hdocs, fun hit => List.filter_sublist hit, ?_, ?_⟩
  · intro doc hdoc kv hkv
    rw [hdocs] at hdoc
    rcases List.mem_map.mp hdoc with ⟨hit, _, hstrip⟩
    rw [← hstrip] at hkv
    have := (List.mem_filter.mp hkv).2
    simpa [Bool.not_eq_true'] using this
  · intro hit kv hmem hkey
    exact List.mem_filter.mpr ⟨hmem, by simp [hkey]⟩

/-- C10 witness: a hit with an `@search.score` key and a `content` key is
returned with only the `content` key, in order. -/
theorem c10_metadata_stripped_witness :
    (search_documents false metadata_engine "q" schema0 3 "vector"
        "Collection(Edm.Single)").1.documents =
      metadata_engine_response.hits.map strip_metadata :=
  (c10_metadata_stripped metadata_engine "q" schema0 3 "vector"
    "Collection(Edm.Single)" metadata_engine_response rfl).1
